import Mathlib

/-!
Verification of the dbt Snowflake benchmark harness.

This file gives a shallow embedding of the comparison/report engine
(snowflake/benchmark/report.py), the output verifier
(snowflake/benchmark/verify_output.py), the baseline store
(snowflake/benchmark/baseline.py) and the lookback computation of the
metrics collector (snowflake/benchmark/metrics_collector.py), and proves
properties of the embedded functions.

Python floats are modelled as rationals; Snowflake query results and the
filesystem are passed in explicitly as oracle arguments; fallible
operations return Option or Except.
-/

/-- Round half to even on rationals, the tie convention of Python's built-in
round function applied to a finite value. -/
def pyRound (x : ℚ) : ℤ :=
  if x - ⌊x⌋ < 1 / 2 then ⌊x⌋
  else if 1 / 2 < x - ⌊x⌋ then ⌊x⌋ + 1
  else if ⌊x⌋ % 2 = 0 then ⌊x⌋ else ⌊x⌋ + 1

/-- Python round(x, ndigits) for a positive number of digits. -/
def pyRoundTo (ndigits : ℕ) (x : ℚ) : ℚ :=
  (pyRound (x * 10 ^ ndigits) : ℚ) / 10 ^ ndigits

/-- Python int(x) truncation toward zero on a rational. -/
def pyInt (x : ℚ) : ℤ := if 0 ≤ x then ⌊x⌋ else -⌊-x⌋

/-- Python str.lower as used on the ASCII identifiers of this code base. -/
def pyLower (s : String) : String := s.map Char.toLower

/-- Is the first character list an initial segment of the second. -/
def leadsList : List Char → List Char → Bool
  | [], _ => true
  | _ :: _, [] => false
  | a :: as, b :: bs => a == b && leadsList as bs

/-- Does the first character list occur contiguously inside the second. -/
def occursInList (sub : List Char) : List Char → Bool
  | [] => leadsList sub []
  | b :: bs => leadsList sub (b :: bs) || occursInList sub bs

/-- Python substring containment, the expression sub in s on strings. -/
def occursIn (sub s : String) : Bool := occursInList sub.data s.data

/-- Python fqn.split(".")[-1], the model name of a fully qualified name. -/
def last_component (fqn : String) : String := (fqn.splitOn ".").getLastD ""

/-! ## report.py : comparison and reporting engine -/

/-- report.py, _calculate_percentage_change. -/
def calculate_percentage_change (baseline current : ℚ) : ℚ :=
  if baseline = 0 then 0
  else pyRoundTo 1 ((current - baseline) / |baseline| * 100)

/-- The cost_estimation section of benchmark_config.yml as read by
_calculate_cost once enabled: a credits-per-hour rate and a price per
credit in USD. -/
structure CostConfig where
  credits_per_hour : ℚ
  cost_per_credit_usd : ℚ

/-- report.py, _calculate_cost. A disabled or missing configuration is the
none case and yields no estimate. -/
def calculate_cost (execution_time_ms : ℚ) (cost_config : Option CostConfig) : Option ℚ :=
  match cost_config with
  | none => none
  | some cfg =>
    let execution_time_seconds := execution_time_ms / 1000
    let billable_seconds := max 60 execution_time_seconds
    let credits_used := billable_seconds / 3600 * cfg.credits_per_hour
    let cost_usd := credits_used * cfg.cost_per_credit_usd
    some (pyRoundTo 4 cost_usd)

/-- report.py, _is_regression. -/
def is_regression (metric_name : String) (change_pct : ℚ) : Bool :=
  let regression_metrics : List String :=
    ["execution_time_change_pct", "bytes_scanned_change_pct", "partitions_scanned_change_pct"]
  if regression_metrics.contains metric_name then decide (change_pct > 0) else false

/-- The three totals _compare_metric_set reads from a metrics dictionary;
the source defaults a missing key to 0. -/
structure Metrics where
  total_execution_time_ms : ℚ
  total_bytes_scanned : ℚ
  total_rows_produced : ℚ

/-- report.py, dataclass MetricComparison. -/
structure MetricComparison where
  metric_name : String
  metric_key : String
  baseline_value : ℚ
  current_value : ℚ
  change_pct : ℚ
  is_regression : Bool

/-- report.py, _compare_metric_set: the comparison rows and regression
warnings for one metric set. The cost configuration, read from a file in
the source, is passed explicitly; numeric warning text is rendered with
toString in place of Python float formatting. -/
def compare_metric_set (baseline_metrics current_metrics : Metrics)
    (metric_set_name : String) (cost_config : Option CostConfig) :
    List MetricComparison × List String :=
  let baseline_exec_time := baseline_metrics.total_execution_time_ms
  let current_exec_time := current_metrics.total_execution_time_ms
  let baseline_bytes := baseline_metrics.total_bytes_scanned
  let current_bytes := current_metrics.total_bytes_scanned
  let baseline_rows := baseline_metrics.total_rows_produced
  let current_rows := current_metrics.total_rows_produced
  let baseline_cost := calculate_cost baseline_exec_time cost_config
  let current_cost := calculate_cost current_exec_time cost_config
  let exec_time_change := calculate_percentage_change baseline_exec_time current_exec_time
  let exec_time_regression := is_regression "execution_time_change_pct" exec_time_change
  let execComp : MetricComparison :=
    { metric_name := metric_set_name ++ " Execution Time"
      metric_key := pyLower metric_set_name ++ "_execution_time_change_pct"
      baseline_value := baseline_exec_time
      current_value := current_exec_time
      change_pct := exec_time_change
      is_regression := exec_time_regression }
  let execWarns : List String :=
    if exec_time_regression then
      ["execution_time increased by " ++ toString exec_time_change ++ "%"]
    else []
  let bytes_change := calculate_percentage_change baseline_bytes current_bytes
  let bytes_regression := is_regression "bytes_scanned_change_pct" bytes_change
  let bytesComp : MetricComparison :=
    { metric_name := metric_set_name ++ " Bytes Scanned"
      metric_key := pyLower metric_set_name ++ "_bytes_scanned_change_pct"
      baseline_value := baseline_bytes
      current_value := current_bytes
      change_pct := bytes_change
      is_regression := bytes_regression }
  let bytesWarns : List String :=
    if bytes_regression then
      ["bytes_scanned increased by " ++ toString bytes_change ++ "%"]
    else []
  let rows_change := calculate_percentage_change baseline_rows current_rows
  let rows_regression := is_regression "rows_produced_change_pct" rows_change
  let rowsComp : MetricComparison :=
    { metric_name := metric_set_name ++ " Rows Produced"
      metric_key := pyLower metric_set_name ++ "_rows_produced_change_pct"
      baseline_value := baseline_rows
      current_value := current_rows
      change_pct := rows_change
      is_regression := rows_regression }
  match baseline_cost, current_cost with
  | some bcost, some ccost =>
    let cost_change := calculate_percentage_change bcost ccost
    let cost_regression := is_regression "execution_time_change_pct" cost_change
    let costComp : MetricComparison :=
      { metric_name := metric_set_name ++ " Estimated Cost"
        metric_key := pyLower metric_set_name ++ "_cost_change_pct"
        baseline_value := bcost
        current_value := ccost
        change_pct := cost_change
        is_regression := cost_regression }
    let costWarns : List String :=
      if cost_regression then
        ["estimated_cost increased by " ++ toString cost_change ++ "%"]
      else []
    ([execComp, bytesComp, rowsComp, costComp], execWarns ++ bytesWarns ++ costWarns)
  | _, _ => ([execComp, bytesComp, rowsComp], execWarns ++ bytesWarns)

/-- The tradeoff dictionary built by _calculate_tradeoff_analysis. -/
structure TradeoffAnalysis where
  build_vs_query_insight : String
  build_cost_change : ℚ
  query_performance_change : ℚ
  recommendation : String

/-- report.py, _calculate_tradeoff_analysis. The insight strings keep the
source wording with numeric placeholders rendered by toString. -/
def calculate_tradeoff_analysis (build_comparisons query_comparisons : List MetricComparison) :
    TradeoffAnalysis :=
  let build_exec_change : ℚ := build_comparisons.foldl
    (fun acc comp => if occursIn "execution_time" comp.metric_key then comp.change_pct else acc) 0
  let query_exec_change : ℚ := query_comparisons.foldl
    (fun acc comp => if occursIn "execution_time" comp.metric_key then comp.change_pct else acc) 0
  if 0 < build_exec_change ∧ query_exec_change < 0 then
    { build_vs_query_insight := "Build cost increased " ++ toString build_exec_change ++
        "%, but query performance improved " ++ toString query_exec_change ++ "% (faster queries)"
      build_cost_change := build_exec_change
      query_performance_change := query_exec_change
      recommendation := "FAVORABLE: Higher build cost for faster queries" }
  else if build_exec_change < 0 ∧ 0 < query_exec_change then
    { build_vs_query_insight := "Build cost decreased " ++ toString build_exec_change ++
        "% (faster builds), but query performance regressed " ++ toString query_exec_change ++
        "% (slower queries)"
      build_cost_change := build_exec_change
      query_performance_change := query_exec_change
      recommendation := "UNFAVORABLE: Lower build cost at cost of slower queries" }
  else if 0 < build_exec_change ∧ 0 < query_exec_change then
    { build_vs_query_insight := "Both build " ++ toString build_exec_change ++ "% and queries " ++
        toString query_exec_change ++ "% got slower"
      build_cost_change := build_exec_change
      query_performance_change := query_exec_change
      recommendation := "REGRESSION: Both build and query performance degraded" }
  else if build_exec_change < 0 ∧ query_exec_change < 0 then
    { build_vs_query_insight := "Both build " ++ toString build_exec_change ++ "% and queries " ++
        toString query_exec_change ++ "% got faster"
      build_cost_change := build_exec_change
      query_performance_change := query_exec_change
      recommendation := "IMPROVEMENT: Both build and query performance improved" }
  else
    { build_vs_query_insight := "Build and query metrics show minimal change"
      build_cost_change := build_exec_change
      query_performance_change := query_exec_change
      recommendation := "NEUTRAL: No significant performance changes" }

/-! ## verify_output.py : output correctness verification -/

/-- verify_output.py, dataclass BaselineFingerprint. -/
structure BaselineFingerprint where
  model_name : String
  fqn : String
  row_count : ℤ
  content_hash : Option ℤ
  timestamp : String

/-- verify_output.py, dataclass CurrentFingerprint. -/
structure CurrentFingerprint where
  model_name : String
  fqn : String
  row_count : ℤ
  content_hash : Option ℤ
  timestamp : String

/-- verify_output.py, dataclass VerificationResult. -/
structure VerificationResult where
  model_name : String
  fqn : String
  passed : Bool
  row_count_match : Option Bool := none
  hash_match : Option Bool := none
  baseline_row_count : Option ℤ := none
  current_row_count : Option ℤ := none
  baseline_hash : Option ℤ := none
  current_hash : Option ℤ := none
  error_message : String := ""
  warnings : List String := []

/-- verify_output.py, _compare_fingerprints. The hash comparison step
returns the tuple (hash_match, hash check did not fail, extra error
messages, warnings). -/
def compare_fingerprints (baseline : BaselineFingerprint) (current : CurrentFingerprint) :
    VerificationResult :=
  let row_count_match : Bool := baseline.row_count == current.row_count
  let row_errors : List String :=
    if row_count_match then []
    else
      ["Row count mismatch: expected " ++ toString baseline.row_count ++
        ", got " ++ toString current.row_count]
  let hash_step : Option Bool × Bool × List String × List String :=
    if row_count_match ∧ 0 < current.row_count then
      match baseline.content_hash, current.content_hash with
      | some baseline_hash, some current_hash =>
        if baseline_hash == current_hash then (some true, true, [], [])
        else
          (some false, false,
            ["Content hash mismatch: expected " ++ toString baseline_hash ++
              ", got " ++ toString current_hash], [])
      | some baseline_hash, none =>
        (none, true, [],
          ["Could not compute current content hash for comparison (baseline hash: " ++
            toString baseline_hash ++ ")"])
      | none, some current_hash =>
        (none, true, [],
          ["Current content hash computed but baseline has none (current hash: " ++
            toString current_hash ++ ")"])
      | none, none => (some true, true, [], [])
    else (some true, true, [], [])
  { model_name := current.model_name
    fqn := current.fqn
    passed := row_count_match && hash_step.2.1
    row_count_match := some row_count_match
    hash_match := hash_step.1
    baseline_row_count := some baseline.row_count
    current_row_count := some current.row_count
    baseline_hash := baseline.content_hash
    current_hash := current.content_hash
    error_message := String.intercalate " | " (row_errors ++ hash_step.2.2.1)
    warnings := hash_step.2.2.2 }

/-- verify_output.py, _get_content_hash. hash_agg and sum_hash are the
outcomes of the two hashing SQL strategies (_try_hash_agg, _try_sum_hash)
for this model; none models a failed query or a NULL aggregate. -/
def get_content_hash (hash_agg sum_hash : Option ℤ) (row_count : ℤ) : Option ℤ :=
  if row_count == 0 then none
  else
    match hash_agg with
    | some h => some h
    | none =>
      match sum_hash with
      | some h => some h
      | none => none

/-- verify_output.py, _get_current_fingerprint. row_count_result is the
outcome of _get_row_count (none models a missing table); timestamp is the
collection clock. -/
def get_current_fingerprint (fqn : String) (row_count_result : Option ℤ)
    (hash_agg sum_hash : Option ℤ) (timestamp : String) : Option CurrentFingerprint :=
  match row_count_result with
  | none => none
  | some row_count =>
    some { model_name := last_component fqn
           fqn := fqn
           row_count := row_count
           content_hash := get_content_hash hash_agg sum_hash row_count
           timestamp := timestamp }

/-- verify_output.py, _verify_single_model. current_result stands for the
value of _get_current_fingerprint for this fqn. -/
def verify_single_model (fqn : String)
    (baseline_map : String → Option BaselineFingerprint)
    (current_result : Option CurrentFingerprint) : VerificationResult :=
  let model_name := last_component fqn
  match (baseline_map fqn).or (baseline_map model_name) with
  | none =>
    { model_name := model_name
      fqn := fqn
      passed := true
      error_message := "No baseline available (first run)"
      warnings := ["No baseline fingerprint found - output accepted as baseline"] }
  | some baseline =>
    match current_result with
    | none =>
      { model_name := model_name
        fqn := fqn
        passed := false
        error_message := "Failed to retrieve fingerprint for model " ++ model_name }
    | some current => compare_fingerprints baseline current

/-- verify_output.py, _create_baseline_map: dictionary insertion in list
order, later entries overwriting earlier ones; the key is the fqn when
truthy (non-empty), else the model name. -/
def create_baseline_map (baseline_fingerprints : List BaselineFingerprint) :
    String → Option BaselineFingerprint :=
  baseline_fingerprints.foldl
    (fun m fp =>
      let key := if fp.fqn ≠ "" then fp.fqn else fp.model_name
      fun k => if k = key then some fp else m k)
    (fun _ => none)

/-- verify_output.py, dataclass VerificationSummary. -/
structure VerificationSummary where
  pipeline_id : String
  total_models : ℕ
  passed_models : ℕ
  failed_models : ℕ
  results : List VerificationResult
  timestamp : String

/-- The success_rate field computed by VerificationSummary.to_dict. -/
def success_rate (s : VerificationSummary) : ℚ :=
  if 0 < s.total_models then (s.passed_models : ℚ) / (s.total_models : ℚ) else 0

/-- verify_output.py, _create_failed_summary. -/
def create_failed_summary (pipeline_id : String) (model_fqns : List String)
    (timestamp : String) : VerificationSummary :=
  { pipeline_id := pipeline_id
    total_models := model_fqns.length
    passed_models := 0
    failed_models := model_fqns.length
    results := model_fqns.map (fun fqn =>
      { model_name := last_component fqn
        fqn := fqn
        passed := false
        error_message := "Verification system error - unable to connect or verify" })
    timestamp := timestamp }

/-- verify_output.py, OutputVerifier.verify_models. connect_ok is the
outcome of SnowflakeConnection.connect, current_results the per-fqn outcome
of _get_current_fingerprint, timestamp the collection clock. A failed
connection returns _create_failed_summary; the exception handler builds
the same failed summary. -/
def verify_models (connect_ok : Bool) (pipeline_id : String) (model_fqns : List String)
    (baseline_fingerprints : List BaselineFingerprint)
    (current_results : String → Option CurrentFingerprint)
    (timestamp : String) : VerificationSummary :=
  if !connect_ok then create_failed_summary pipeline_id model_fqns timestamp
  else
    let baseline_map := create_baseline_map baseline_fingerprints
    let results := model_fqns.map
      (fun fqn => verify_single_model fqn baseline_map (current_results fqn))
    let passed_count := results.countP (fun r => r.passed)
    { pipeline_id := pipeline_id
      total_models := model_fqns.length
      passed_models := passed_count
      failed_models := model_fqns.length - passed_count
      results := results
      timestamp := timestamp }

/-! ## baseline.py : baseline store -/

/-- A JSON document, the target of json.load and source of json.dump. -/
inductive Json where
  | null : Json
  | bool (b : Bool) : Json
  | num (q : ℚ) : Json
  | str (s : String) : Json
  | arr (elements : List Json) : Json
  | obj (members : List (String × Json)) : Json

/-- Python key in data on a parsed JSON object. -/
def Json.hasKey : Json → String → Bool
  | .obj members, key => members.any (fun kv => kv.1 == key)
  | _, _ => false

/-- Dictionary lookup data[key] on a parsed JSON object; save_baseline
writes distinct keys, so first match suffices. -/
def Json.getKey : Json → String → Option Json
  | .obj members, key => (members.find? (fun kv => kv.1 == key)).map (fun kv => kv.2)
  | _, _ => none

/-- Python isinstance(x, dict) on a JSON value. -/
def Json.isObj : Json → Bool
  | .obj _ => true
  | _ => false

/-- baseline.py, dataclass BaselineMetadata: the environment snapshot
captured at save time. -/
structure BaselineMetadata where
  timestamp : String
  git_commit : Option String
  dbt_version : Option String
  username : Option String

/-- baseline.py, BaselineMetadata.to_dict. -/
def metadata_to_dict (m : BaselineMetadata) : Json :=
  .obj [("timestamp", .str m.timestamp),
        ("git_commit", match m.git_commit with | some s => .str s | none => .null),
        ("dbt_version", match m.dbt_version with | some s => .str s | none => .null),
        ("username", match m.username with | some s => .str s | none => .null)]

/-- baseline.py, dataclass BaselineData. -/
structure BaselineData where
  pipeline_name : String
  build_metrics : Json
  query_metrics : Json
  fingerprints : List Json
  metadata : BaselineMetadata

/-- baseline.py, BaselineData.to_dict, the document written by json.dump. -/
def baseline_to_dict (b : BaselineData) : Json :=
  .obj [("pipeline_name", .str b.pipeline_name),
        ("build_metrics", b.build_metrics),
        ("query_metrics", b.query_metrics),
        ("fingerprints", .arr b.fingerprints),
        ("metadata", metadata_to_dict b.metadata)]

/-- baseline.py, _get_baseline_file_path relative to the baselines
directory: pipeline_name lowercased, spaces replaced by underscores, with
the _baseline.json suffix. -/
def baseline_file_path (pipeline_name : String) : String :=
  (pyLower pipeline_name).replace " " "_" ++ "_baseline.json"

/-- baseline.py, save_baseline. The filesystem is modelled as a map from
path to stored JSON document; metadata stands for the environment snapshot
(timestamp, git commit, dbt version, username) captured at save time. -/
def save_baseline (store : String → Option Json) (pipeline_name : String)
    (build_metrics query_metrics : Json) (fingerprints : List Json)
    (metadata : BaselineMetadata) : Except String (String → Option Json) :=
  if pipeline_name = "" then .error "pipeline_name cannot be empty"
  else if !build_metrics.isObj then .error "build_metrics must be a dictionary"
  else if !query_metrics.isObj then .error "query_metrics must be a dictionary"
  else
    let baseline_data : BaselineData :=
      { pipeline_name := pipeline_name
        build_metrics := build_metrics
        query_metrics := query_metrics
        fingerprints := fingerprints
        metadata := metadata }
    let file_path := baseline_file_path pipeline_name
    .ok (fun p => if p = file_path then some (baseline_to_dict baseline_data) else store p)

/-- baseline.py, load_baseline applied to the read file contents: none
models a missing file (the source returns None), some (.error e) a JSON
parse failure (the source returns None), some (.ok data) a parsed document,
which is checked for the legacy format before being returned. -/
def load_baseline_data (contents : Option (Except String Json)) :
    Except String (Option Json) :=
  match contents with
  | none => .ok none
  | some (.error _) => .ok none
  | some (.ok data) =>
    if data.hasKey "metrics" ∧ ¬ data.hasKey "build_metrics" then
      .error "Baseline file uses old format. Please regenerate baseline with updated benchmark.py"
    else .ok (some data)

/-- baseline.py, load_baseline reading from the modelled filesystem. -/
def load_baseline (store : String → Option Json) (pipeline_name : String) :
    Except String (Option Json) :=
  load_baseline_data ((store (baseline_file_path pipeline_name)).map .ok)

/-! ## metrics_collector.py : build-time history lookback -/

/-- metrics_collector.py, _query_execution_history, the lookback in
minutes: max(int((now - start_time).total_seconds() / 60) + 5, 15). Times
are in seconds. -/
def minutes_ago_start (now start_time : ℚ) : ℤ :=
  max (pyInt ((now - start_time) / 60) + 5) 15

/-- The start of the history window the query requests:
DATEADD(minute, -minutes_ago_start, CURRENT_TIMESTAMP()), in seconds. -/
def history_window_start (now start_time : ℚ) : ℚ :=
  now - 60 * (minutes_ago_start now start_time : ℚ)

/-! ## Helper lemmas -/

theorem pyRound_nonpos {x : ℚ} (h : x ≤ 0) : pyRound x ≤ 0 := by
  have hf : ⌊x⌋ ≤ 0 := Int.floor_nonpos h
  have hneg : (⌊x⌋ : ℚ) ≤ x - 1 / 2 → ⌊x⌋ + 1 ≤ 0 := by
    intro hle
    have h1 : (⌊x⌋ : ℚ) ≤ -(1 / 2) := by linarith
    have h1b : (⌊x⌋ : ℚ) < 0 := lt_of_le_of_lt h1 (by norm_num)
    have h2 : ⌊x⌋ < 0 := by exact_mod_cast h1b
    omega
  unfold pyRound
  split
  · exact hf
  · split
    · rename_i h1 h2
      push_neg at h1
      exact hneg (by linarith)
    · split
      · exact hf
      · rename_i h1 h2 h3
        push_neg at h1 h2
        exact hneg (by linarith)

theorem pyRoundTo_nonpos {n : ℕ} {x : ℚ} (h : x ≤ 0) : pyRoundTo n x ≤ 0 := by
  unfold pyRoundTo
  have hx : x * 10 ^ n ≤ 0 :=
    mul_nonpos_iff.mpr (Or.inr ⟨h, by positivity⟩)
  have hr : (pyRound (x * 10 ^ n) : ℚ) ≤ 0 := by exact_mod_cast pyRound_nonpos hx
  exact div_nonpos_iff.mpr (Or.inr ⟨hr, by positivity⟩)

/-- C1: the percentage-change function returns 0 when the baseline is 0 and
otherwise rounds ((current - baseline) / |baseline|) * 100 to one decimal
place; for a positive baseline a positive result implies current > baseline
and current <= baseline forces a nonpositive result. Because of the
rounding, the result can be 0 even when current > baseline, so the result
being positive is only necessary, not equivalent, for current > baseline. -/
theorem percentage_change_props (b c : ℚ) :
    calculate_percentage_change 0 c = 0 ∧
    (b ≠ 0 → calculate_percentage_change b c = pyRoundTo 1 ((c - b) / |b| * 100)) ∧
    (0 < b → 0 < calculate_percentage_change b c → b < c) ∧
    (0 < b → c ≤ b → calculate_percentage_change b c ≤ 0) := by
  have key : 0 < b → c ≤ b → calculate_percentage_change b c ≤ 0 := by
    intro hb hcb
    unfold calculate_percentage_change
    rw [if_neg (ne_of_gt hb)]
    apply pyRoundTo_nonpos
    have h1 : (c - b) / |b| ≤ 0 :=
      div_nonpos_iff.mpr (Or.inr ⟨by linarith, abs_nonneg b⟩)
    nlinarith
  refine ⟨by unfold calculate_percentage_change; rw [if_pos rfl], ?_, ?_, key⟩
  · intro hb
    unfold calculate_percentage_change
    rw [if_neg hb]
  · intro hb hpos
    by_contra hnc
    push_neg at hnc
    exact absurd hpos (not_lt.mpr (key hb hnc))

/-- C1 counterexample: with baseline 10000 > 0 and current 10001 > baseline
the function returns 0.0, which is not positive, refuting the claimed
equivalence between a positive result and current > baseline. -/
theorem percentage_change_counterexample :
    (0:ℚ) < 10000 ∧ (10000:ℚ) < 10001 ∧ calculate_percentage_change 10000 10001 = 0 := by
  refine ⟨by norm_num, by norm_num, ?_⟩
  unfold calculate_percentage_change pyRoundTo pyRound
  norm_num

/-- C1 witness. -/
theorem percentage_change_witness :
    calculate_percentage_change 0 9 = 0 ∧
    ((2:ℚ) ≠ 0 ∧ calculate_percentage_change 2 3 = pyRoundTo 1 ((3 - 2) / |(2:ℚ)| * 100)) ∧
    ((0:ℚ) < 4 ∧ (4:ℚ) ≤ 4 ∧ calculate_percentage_change 4 4 ≤ 0) :=
  ⟨(percentage_change_props 5 9).1,
   ⟨by decide, (percentage_change_props 2 3).2.1 (by decide)⟩,
   ⟨by decide, by decide, (percentage_change_props 4 4).2.2.2 (by decide) (by decide)⟩⟩

theorem intercalate_single (s a : String) : String.intercalate s [a] = a := by
  simp [String.intercalate, String.intercalate.go]

theorem leadsList_append (s t : List Char) : leadsList s (s ++ t) = true := by
  induction s with
  | nil => rfl
  | cons a as ih => simp [leadsList, ih]

theorem occursInList_here (s t : List Char) : occursInList s (s ++ t) = true := by
  rcases h : s ++ t with _ | ⟨b, bs⟩
  · have hs : s = [] := (List.append_eq_nil.mp h).1
    subst hs
    rfl
  · unfold occursInList
    rw [← h, leadsList_append]
    simp

theorem occursInList_middle (pre sub post : List Char) :
    occursInList sub (pre ++ (sub ++ post)) = true := by
  induction pre with
  | nil => simpa using occursInList_here sub post
  | cons b bs ih =>
    show occursInList sub (b :: (bs ++ (sub ++ post))) = true
    unfold occursInList
    rw [ih]
    simp

/-- C2: a model with no baseline fingerprint entry under either its fully
qualified name or its short model name verifies as passed with a non-empty
warnings list, whatever the current fingerprint holds. -/
theorem verify_single_model_first_run (fqn : String)
    (baseline_map : String → Option BaselineFingerprint)
    (current_result : Option CurrentFingerprint)
    (hfqn : baseline_map fqn = none)
    (hname : baseline_map (last_component fqn) = none) :
    (verify_single_model fqn baseline_map current_result).passed = true ∧
    (verify_single_model fqn baseline_map current_result).warnings ≠ [] := by
  unfold verify_single_model
  simp [hfqn, hname, Option.or]

/-- C2 witness. -/
theorem verify_single_model_first_run_witness :
    ((fun _ : String => (none : Option BaselineFingerprint)) "DBT_DEMO.DEV.FACT" = none) ∧
    (verify_single_model "DBT_DEMO.DEV.FACT" (fun _ => none)
      (some { model_name := "FACT", fqn := "DBT_DEMO.DEV.FACT", row_count := 7,
              content_hash := some 5, timestamp := "" })).passed = true ∧
    (verify_single_model "DBT_DEMO.DEV.FACT" (fun _ => none)
      (some { model_name := "FACT", fqn := "DBT_DEMO.DEV.FACT", row_count := 7,
              content_hash := some 5, timestamp := "" })).warnings ≠ [] :=
  ⟨rfl,
   (verify_single_model_first_run "DBT_DEMO.DEV.FACT" (fun _ => none) _ rfl rfl).1,
   (verify_single_model_first_run "DBT_DEMO.DEV.FACT" (fun _ => none) _ rfl rfl).2⟩

/-- C3: for a row count of 0 the content hash is never computed and stays
none, both in _get_content_hash and in the fingerprint built by
_get_current_fingerprint, and comparing two empty fingerprints passes with
hash_match true whatever their hash fields hold. -/
theorem empty_table_fingerprint (hash_agg sum_hash : Option ℤ)
    (fqn timestamp : String)
    (baseline : BaselineFingerprint) (current : CurrentFingerprint)
    (hb : baseline.row_count = 0) (hc : current.row_count = 0) :
    get_content_hash hash_agg sum_hash 0 = none ∧
    get_current_fingerprint fqn (some 0) hash_agg sum_hash timestamp =
      some { model_name := last_component fqn, fqn := fqn, row_count := 0,
             content_hash := none, timestamp := timestamp } ∧
    (compare_fingerprints baseline current).passed = true ∧
    (compare_fingerprints baseline current).hash_match = some true := by
  have h1 : get_content_hash hash_agg sum_hash 0 = none := by
    unfold get_content_hash
    simp
  refine ⟨h1, ?_, ?_, ?_⟩
  · simp [get_current_fingerprint, h1]
  · unfold compare_fingerprints
    rw [hb, hc]
    simp
  · unfold compare_fingerprints
    rw [hb, hc]
    simp

/-- C3 witness. -/
theorem empty_table_fingerprint_witness :
    ((⟨"M", "D.S.M", 0, some 11, ""⟩ : BaselineFingerprint).row_count = 0) ∧
    ((⟨"M", "D.S.M", 0, some 22, ""⟩ : CurrentFingerprint).row_count = 0) ∧
    get_content_hash (some 3) (some 4) 0 = none ∧
    (compare_fingerprints ⟨"M", "D.S.M", 0, some 11, ""⟩
      ⟨"M", "D.S.M", 0, some 22, ""⟩).passed = true ∧
    (compare_fingerprints ⟨"M", "D.S.M", 0, some 11, ""⟩
      ⟨"M", "D.S.M", 0, some 22, ""⟩).hash_match = some true :=
  ⟨rfl, rfl,
   (empty_table_fingerprint (some 3) (some 4) "D.S.M" ""
     ⟨"M", "D.S.M", 0, some 11, ""⟩ ⟨"M", "D.S.M", 0, some 22, ""⟩ rfl rfl).1,
   (empty_table_fingerprint (some 3) (some 4) "D.S.M" ""
     ⟨"M", "D.S.M", 0, some 11, ""⟩ ⟨"M", "D.S.M", 0, some 22, ""⟩ rfl rfl).2.2.1,
   (empty_table_fingerprint (some 3) (some 4) "D.S.M" ""
     ⟨"M", "D.S.M", 0, some 11, ""⟩ ⟨"M", "D.S.M", 0, some 22, ""⟩ rfl rfl).2.2.2⟩

/-- C4: when baseline and current row counts differ, the comparison fails
with row_count_match false, and the error message reports both counts in
the forms "expected N" and "got M". -/
theorem compare_fingerprints_row_mismatch
    (baseline : BaselineFingerprint) (current : CurrentFingerprint)
    (h : baseline.row_count ≠ current.row_count) :
    (compare_fingerprints baseline current).passed = false ∧
    (compare_fingerprints baseline current).row_count_match = some false ∧
    (compare_fingerprints baseline current).error_message =
      "Row count mismatch: expected " ++ toString baseline.row_count ++
        ", got " ++ toString current.row_count ∧
    occursIn ("expected " ++ toString baseline.row_count)
      (compare_fingerprints baseline current).error_message = true ∧
    occursIn ("got " ++ toString current.row_count)
      (compare_fingerprints baseline current).error_message = true := by
  have hm : (baseline.row_count == current.row_count) = false := by
    simpa using h
  have hmsg : (compare_fingerprints baseline current).error_message =
      "Row count mismatch: expected " ++ toString baseline.row_count ++
        ", got " ++ toString current.row_count := by
    unfold compare_fingerprints
    simp [hm, intercalate_single]
  refine ⟨?_, ?_, hmsg, ?_, ?_⟩
  · unfold compare_fingerprints
    simp [hm]
  · unfold compare_fingerprints
    simp [hm]
  · rw [hmsg]
    unfold occursIn
    simp only [String.data_append, List.append_assoc]
    rw [show (['R', 'o', 'w', ' ', 'c', 'o', 'u', 'n', 't', ' ', 'm', 'i', 's', 'm', 'a',
        't', 'c', 'h', ':', ' ', 'e', 'x', 'p', 'e', 'c', 't', 'e', 'd', ' '] : List Char) =
        ['R', 'o', 'w', ' ', 'c', 'o', 'u', 'n', 't', ' ', 'm', 'i', 's', 'm', 'a',
          't', 'c', 'h', ':', ' '] ++ ['e', 'x', 'p', 'e', 'c', 't', 'e', 'd', ' '] from rfl]
    simpa only [List.append_assoc] using
      occursInList_middle
        ['R', 'o', 'w', ' ', 'c', 'o', 'u', 'n', 't', ' ', 'm', 'i', 's', 'm', 'a',
          't', 'c', 'h', ':', ' ']
        (['e', 'x', 'p', 'e', 'c', 't', 'e', 'd', ' '] ++ (toString baseline.row_count).data)
        ([',', ' ', 'g', 'o', 't', ' '] ++ (toString current.row_count).data)
  · rw [hmsg]
    unfold occursIn
    simp only [String.data_append, List.append_assoc]
    rw [show ([',', ' ', 'g', 'o', 't', ' '] : List Char) =
        [',', ' '] ++ ['g', 'o', 't', ' '] from rfl]
    simpa only [List.append_assoc, List.append_nil] using
      occursInList_middle
        (['R', 'o', 'w', ' ', 'c', 'o', 'u', 'n', 't', ' ', 'm', 'i', 's', 'm', 'a',
          't', 'c', 'h', ':', ' ', 'e', 'x', 'p', 'e', 'c', 't', 'e', 'd', ' '] ++
          ((toString baseline.row_count).data ++ [',', ' ']))
        (['g', 'o', 't', ' '] ++ (toString current.row_count).data) []

/-- C4 witness. -/
theorem compare_fingerprints_row_mismatch_witness :
    ((⟨"M", "D.S.M", 100, none, ""⟩ : BaselineFingerprint).row_count ≠
      (⟨"M", "D.S.M", 150, none, ""⟩ : CurrentFingerprint).row_count) ∧
    (compare_fingerprints ⟨"M", "D.S.M", 100, none, ""⟩
      ⟨"M", "D.S.M", 150, none, ""⟩).passed = false ∧
    occursIn ("expected " ++ toString (100 : ℤ))
      (compare_fingerprints (⟨"M", "D.S.M", 100, none, ""⟩ : BaselineFingerprint)
        (⟨"M", "D.S.M", 150, none, ""⟩ : CurrentFingerprint)).error_message = true :=
  ⟨by decide,
   (compare_fingerprints_row_mismatch _ _ (by decide)).1,
   (compare_fingerprints_row_mismatch
      (⟨"M", "D.S.M", 100, none, ""⟩ : BaselineFingerprint)
      (⟨"M", "D.S.M", 150, none, ""⟩ : CurrentFingerprint) (by decide)).2.2.2.1⟩

/-- C5: a parsed baseline document carrying the legacy metrics key without a
build_metrics key makes load_baseline raise the format error, whose message
names the required regeneration action; no data, full or partial, is
returned. -/
theorem load_baseline_legacy_format (data : Json)
    (h1 : data.hasKey "metrics" = true) (h2 : data.hasKey "build_metrics" = false) :
    load_baseline_data (some (.ok data)) =
      .error "Baseline file uses old format. Please regenerate baseline with updated benchmark.py" ∧
    occursIn "regenerate"
      "Baseline file uses old format. Please regenerate baseline with updated benchmark.py" = true ∧
    ∀ d : Option Json, load_baseline_data (some (.ok data)) ≠ .ok d := by
  have herr : load_baseline_data (some (.ok data)) =
      .error "Baseline file uses old format. Please regenerate baseline with updated benchmark.py" := by
    simp only [load_baseline_data]
    rw [if_pos ⟨h1, by simp [h2]⟩]
  refine ⟨herr, by decide, ?_⟩
  intro d
  rw [herr]
  simp

/-- C5 witness. -/
theorem load_baseline_legacy_format_witness :
    (Json.obj [("metrics", .num 5)]).hasKey "metrics" = true ∧
    (Json.obj [("metrics", .num 5)]).hasKey "build_metrics" = false ∧
    load_baseline_data (some (.ok (Json.obj [("metrics", .num 5)]))) =
      .error "Baseline file uses old format. Please regenerate baseline with updated benchmark.py" :=
  ⟨rfl, rfl, (load_baseline_legacy_format (Json.obj [("metrics", .num 5)]) rfl rfl).1⟩

/-- C6: after a successful save_baseline, load_baseline on the same pipeline
name returns a document whose build_metrics, query_metrics, fingerprints and
metadata timestamp are identical to the values that were saved. -/
theorem save_load_round_trip (store : String → Option Json) (pipeline_name : String)
    (build_metrics query_metrics : Json) (fingerprints : List Json)
    (metadata : BaselineMetadata)
    (hname : pipeline_name ≠ "")
    (hb : build_metrics.isObj = true) (hq : query_metrics.isObj = true) :
    ∃ (store2 : String → Option Json) (data : Json),
      save_baseline store pipeline_name build_metrics query_metrics fingerprints metadata =
        .ok store2 ∧
      load_baseline store2 pipeline_name = .ok (some data) ∧
      data.getKey "build_metrics" = some build_metrics ∧
      data.getKey "query_metrics" = some query_metrics ∧
      data.getKey "fingerprints" = some (.arr fingerprints) ∧
      (data.getKey "metadata").bind (fun m => m.getKey "timestamp") =
        some (.str metadata.timestamp) := by
  have hsave : save_baseline store pipeline_name build_metrics query_metrics fingerprints
      metadata = .ok (fun p => if p = baseline_file_path pipeline_name
        then some (baseline_to_dict
          { pipeline_name := pipeline_name, build_metrics := build_metrics,
            query_metrics := query_metrics, fingerprints := fingerprints,
            metadata := metadata })
        else store p) := by
    unfold save_baseline
    rw [if_neg hname, if_neg (by simp [hb]), if_neg (by simp [hq])]
  refine ⟨_, baseline_to_dict
    { pipeline_name := pipeline_name, build_metrics := build_metrics,
      query_metrics := query_metrics, fingerprints := fingerprints,
      metadata := metadata }, hsave, ?_, ?_, ?_, ?_, ?_⟩
  · unfold load_baseline
    simp [load_baseline_data, baseline_to_dict, Json.hasKey]
  · simp [baseline_to_dict, Json.getKey]
  · simp [baseline_to_dict, Json.getKey]
  · simp [baseline_to_dict, Json.getKey]
  · simp [baseline_to_dict, metadata_to_dict, Json.getKey]

/-- C6 witness. -/
theorem save_load_round_trip_witness :
    ("Pipeline A" ≠ "") ∧ (Json.obj []).isObj = true ∧
    (∃ (store2 : String → Option Json) (data : Json),
      save_baseline (fun _ => none) "Pipeline A" (.obj [("total_execution_time_ms", .num 5000)])
        (.obj []) [.obj [("model_name", .str "F")]]
        { timestamp := "2024-01-15T10:00:00Z", git_commit := none,
          dbt_version := none, username := none } = .ok store2 ∧
      load_baseline store2 "Pipeline A" = .ok (some data) ∧
      data.getKey "build_metrics" = some (.obj [("total_execution_time_ms", .num 5000)]) ∧
      data.getKey "query_metrics" = some (.obj []) ∧
      data.getKey "fingerprints" = some (.arr [.obj [("model_name", .str "F")]]) ∧
      (data.getKey "metadata").bind (fun m => m.getKey "timestamp") =
        some (.str "2024-01-15T10:00:00Z")) :=
  ⟨by decide, rfl,
   save_load_round_trip (fun _ => none) "Pipeline A" (.obj [("total_execution_time_ms", .num 5000)])
     (.obj []) [.obj [("model_name", .str "F")]]
     { timestamp := "2024-01-15T10:00:00Z", git_commit := none,
       dbt_version := none, username := none } (by decide) rfl rfl⟩

/-- C7: with an enabled cost configuration the estimate equals
round((max(60, t_ms/1000) / 3600) * credits_per_hour * cost_per_credit, 4),
so the one-minute billing floor makes a 30 second execution bill like a 60
second one; and _compare_metric_set applies this same function to the
execution times of whichever metric set, build or query, it is given. -/
theorem calculate_cost_formula (t : ℚ) (cfg : CostConfig) (bm cm : Metrics)
    (metric_set_name : String) :
    calculate_cost t (some cfg) =
      some (pyRoundTo 4 (max 60 (t / 1000) / 3600 *
        cfg.credits_per_hour * cfg.cost_per_credit_usd)) ∧
    calculate_cost 30000 (some cfg) = calculate_cost 60000 (some cfg) ∧
    ∃ cost_comp : MetricComparison,
      (compare_metric_set bm cm metric_set_name (some cfg)).1.getLast? = some cost_comp ∧
      cost_comp.metric_key = pyLower metric_set_name ++ "_cost_change_pct" ∧
      some cost_comp.baseline_value = calculate_cost bm.total_execution_time_ms (some cfg) ∧
      some cost_comp.current_value = calculate_cost cm.total_execution_time_ms (some cfg) := by
  refine ⟨rfl, ?_, ?_⟩
  · have h30 : max (60:ℚ) (30000 / 1000) = 60 := by
      rw [show ((30000:ℚ) / 1000) = 30 by norm_num]
      exact max_eq_left (by norm_num)
    have h60 : max (60:ℚ) (60000 / 1000) = 60 := by
      rw [show ((60000:ℚ) / 1000) = 60 by norm_num]
      exact max_self 60
    simp only [calculate_cost, h30, h60]
  · simp only [compare_metric_set, calculate_cost]
    exact ⟨_, rfl, rfl, rfl, rfl⟩

/-- C8: the tradeoff recommendation is the favorable category exactly when
the build execution-time change is positive and the query one negative,
the unfavorable category exactly for the opposite signs, the regression
category exactly when both are positive, the improvement category exactly
when both are negative, and the neutral category exactly when either
change is zero. -/
theorem tradeoff_recommendation_classification
    (build_comparisons query_comparisons : List MetricComparison) :
    ((calculate_tradeoff_analysis build_comparisons query_comparisons).recommendation =
        "FAVORABLE: Higher build cost for faster queries" ↔
      0 < (calculate_tradeoff_analysis build_comparisons query_comparisons).build_cost_change ∧
      (calculate_tradeoff_analysis build_comparisons query_comparisons).query_performance_change < 0) ∧
    ((calculate_tradeoff_analysis build_comparisons query_comparisons).recommendation =
        "UNFAVORABLE: Lower build cost at cost of slower queries" ↔
      (calculate_tradeoff_analysis build_comparisons query_comparisons).build_cost_change < 0 ∧
      0 < (calculate_tradeoff_analysis build_comparisons query_comparisons).query_performance_change) ∧
    ((calculate_tradeoff_analysis build_comparisons query_comparisons).recommendation =
        "REGRESSION: Both build and query performance degraded" ↔
      0 < (calculate_tradeoff_analysis build_comparisons query_comparisons).build_cost_change ∧
      0 < (calculate_tradeoff_analysis build_comparisons query_comparisons).query_performance_change) ∧
    ((calculate_tradeoff_analysis build_comparisons query_comparisons).recommendation =
        "IMPROVEMENT: Both build and query performance improved" ↔
      (calculate_tradeoff_analysis build_comparisons query_comparisons).build_cost_change < 0 ∧
      (calculate_tradeoff_analysis build_comparisons query_comparisons).query_performance_change < 0) ∧
    ((calculate_tradeoff_analysis build_comparisons query_comparisons).recommendation =
        "NEUTRAL: No significant performance changes" ↔
      (calculate_tradeoff_analysis build_comparisons query_comparisons).build_cost_change = 0 ∨
      (calculate_tradeoff_analysis build_comparisons query_comparisons).query_performance_change = 0) := by
  simp only [calculate_tradeoff_analysis]
  set b := build_comparisons.foldl
    (fun acc comp => if occursIn "execution_time" comp.metric_key then comp.change_pct else acc) 0
    with hbdef
  set q := query_comparisons.foldl
    (fun acc comp => if occursIn "execution_time" comp.metric_key then comp.change_pct else acc) 0
    with hqdef
  split_ifs with h1 h2 h3 h4 <;> dsimp only
  · refine ⟨⟨fun _ => h1, fun _ => rfl⟩, ?_, ?_, ?_, ?_⟩
    · exact ⟨fun hx => absurd hx (by decide), fun hx => by exfalso; linarith [h1.1, hx.1]⟩
    · exact ⟨fun hx => absurd hx (by decide), fun hx => by exfalso; linarith [h1.2, hx.2]⟩
    · exact ⟨fun hx => absurd hx (by decide), fun hx => by exfalso; linarith [h1.1, hx.1]⟩
    · refine ⟨fun hx => absurd hx (by decide), fun hx => ?_⟩
      rcases hx with hx | hx
      · exfalso; linarith [h1.1]
      · exfalso; linarith [h1.2]
  · refine ⟨?_, ⟨fun _ => h2, fun _ => rfl⟩, ?_, ?_, ?_⟩
    · exact ⟨fun hx => absurd hx (by decide), fun hx => by exfalso; linarith [h2.1, hx.1]⟩
    · exact ⟨fun hx => absurd hx (by decide), fun hx => by exfalso; linarith [h2.1, hx.1]⟩
    · exact ⟨fun hx => absurd hx (by decide), fun hx => by exfalso; linarith [h2.2, hx.2]⟩
    · refine ⟨fun hx => absurd hx (by decide), fun hx => ?_⟩
      rcases hx with hx | hx
      · exfalso; linarith [h2.1]
      · exfalso; linarith [h2.2]
  · refine ⟨?_, ?_, ⟨fun _ => h3, fun _ => rfl⟩, ?_, ?_⟩
    · exact ⟨fun hx => absurd hx (by decide), fun hx => by exfalso; linarith [h3.2, hx.2]⟩
    · exact ⟨fun hx => absurd hx (by decide), fun hx => by exfalso; linarith [h3.1, hx.1]⟩
    · exact ⟨fun hx => absurd hx (by decide), fun hx => by exfalso; linarith [h3.1, hx.1]⟩
    · refine ⟨fun hx => absurd hx (by decide), fun hx => ?_⟩
      rcases hx with hx | hx
      · exfalso; linarith [h3.1]
      · exfalso; linarith [h3.2]
  · refine ⟨?_, ?_, ?_, ⟨fun _ => h4, fun _ => rfl⟩, ?_⟩
    · exact ⟨fun hx => absurd hx (by decide), fun hx => by exfalso; linarith [h4.1, hx.1]⟩
    · exact ⟨fun hx => absurd hx (by decide), fun hx => by exfalso; linarith [h4.2, hx.2]⟩
    · exact ⟨fun hx => absurd hx (by decide), fun hx => by exfalso; linarith [h4.1, hx.1]⟩
    · refine ⟨fun hx => absurd hx (by decide), fun hx => ?_⟩
      rcases hx with hx | hx
      · exfalso; linarith [h4.1]
      · exfalso; linarith [h4.2]
  · have hbq : b = 0 ∨ q = 0 := by
      rcases lt_trichotomy b 0 with hb | hb | hb
      · rcases lt_trichotomy q 0 with hq | hq | hq
        · exact absurd ⟨hb, hq⟩ h4
        · exact Or.inr hq
        · exact absurd ⟨hb, hq⟩ h2
      · exact Or.inl hb
      · rcases lt_trichotomy q 0 with hq | hq | hq
        · exact absurd ⟨hb, hq⟩ h1
        · exact Or.inr hq
        · exact absurd ⟨hb, hq⟩ h3
    refine ⟨?_, ?_, ?_, ?_, ⟨fun _ => hbq, fun _ => rfl⟩⟩ <;>
      refine ⟨fun hx => absurd hx (by decide), fun hx => ?_⟩ <;>
      rcases hbq with h0 | h0 <;> exfalso <;> linarith [hx.1, hx.2]

/-- C9 counterexample: with the pipeline started 60 seconds before the
collection time, the lookback is the 15-minute floor measured from now, so
the window starts only 14 minutes before start_ts, which is later than
start_ts minus 15 minutes. -/
theorem history_window_counterexample :
    (0:ℚ) ≤ 60 ∧ ¬ history_window_start 60 0 ≤ 0 - 15 * 60 := by
  constructor
  · decide
  · unfold history_window_start minutes_ago_start pyInt
    rw [show ((60:ℚ) - 0) / 60 = 1 by norm_num]
    rw [if_pos (by norm_num : (0:ℚ) ≤ 1)]
    rw [show ⌊(1:ℚ)⌋ = 1 by norm_num]
    rw [show max ((1:ℤ) + 5) 15 = 15 from rfl]
    norm_num

/-- C9 amended: for any collection time now at or after start_ts, the
history window starts at least 15 minutes before now, and more than 240
seconds (4 minutes) before start_ts; the 15-minute lower bound of the
lookback is measured from now, not from start_ts. -/
theorem history_window_start_bounds (now start_time : ℚ) (h : start_time ≤ now) :
    history_window_start now start_time ≤ now - 900 ∧
    history_window_start now start_time < start_time - 240 := by
  unfold history_window_start minutes_ago_start pyInt
  have hd : 0 ≤ (now - start_time) / 60 := div_nonneg (by linarith) (by norm_num)
  rw [if_pos hd]
  constructor
  · have h15 : (15:ℤ) ≤ max (⌊(now - start_time) / 60⌋ + 5) 15 := le_max_right _ _
    have h15q : (15:ℚ) ≤ ((max (⌊(now - start_time) / 60⌋ + 5) 15 : ℤ) : ℚ) := by
      exact_mod_cast h15
    linarith
  · have hle : ⌊(now - start_time) / 60⌋ + 5 ≤ max (⌊(now - start_time) / 60⌋ + 5) 15 :=
      le_max_left _ _
    have hleq : ((⌊(now - start_time) / 60⌋ : ℚ) + 5) ≤
        ((max (⌊(now - start_time) / 60⌋ + 5) 15 : ℤ) : ℚ) := by
      exact_mod_cast hle
    have hfl : (now - start_time) / 60 - 1 < (⌊(now - start_time) / 60⌋ : ℚ) :=
      Int.sub_one_lt_floor _
    have hdm : (now - start_time) / 60 * 60 = now - start_time :=
      div_mul_cancel₀ _ (by norm_num)
    linarith

/-- C9 witness. -/
theorem history_window_start_bounds_witness :
    (0:ℚ) ≤ 3600 ∧ history_window_start 3600 0 ≤ 3600 - 900 ∧
      history_window_start 3600 0 < 0 - 240 :=
  ⟨by decide, (history_window_start_bounds 3600 0 (by decide)).1,
    (history_window_start_bounds 3600 0 (by decide)).2⟩

/-- C10: every summary produced by verify_models, the failed summary for a
failed connection included, satisfies passed + failed = total = number of
input fqns, and its success_rate is passed/total when total is positive
and 0 when the input list is empty, with no division by zero. -/
theorem verify_models_count_invariant (connect_ok : Bool) (pipeline_id : String)
    (model_fqns : List String) (baseline_fingerprints : List BaselineFingerprint)
    (current_results : String → Option CurrentFingerprint) (timestamp : String) :
    (verify_models connect_ok pipeline_id model_fqns baseline_fingerprints
        current_results timestamp).passed_models +
      (verify_models connect_ok pipeline_id model_fqns baseline_fingerprints
        current_results timestamp).failed_models =
      (verify_models connect_ok pipeline_id model_fqns baseline_fingerprints
        current_results timestamp).total_models ∧
    (verify_models connect_ok pipeline_id model_fqns baseline_fingerprints
        current_results timestamp).total_models = model_fqns.length ∧
    (0 < (verify_models connect_ok pipeline_id model_fqns baseline_fingerprints
        current_results timestamp).total_models →
      success_rate (verify_models connect_ok pipeline_id model_fqns baseline_fingerprints
          current_results timestamp) =
        ((verify_models connect_ok pipeline_id model_fqns baseline_fingerprints
          current_results timestamp).passed_models : ℚ) /
        ((verify_models connect_ok pipeline_id model_fqns baseline_fingerprints
          current_results timestamp).total_models : ℚ)) ∧
    ((verify_models connect_ok pipeline_id model_fqns baseline_fingerprints
        current_results timestamp).total_models = 0 →
      success_rate (verify_models connect_ok pipeline_id model_fqns baseline_fingerprints
          current_results timestamp) = 0) := by
  have hsr1 : ∀ s : VerificationSummary, 0 < s.total_models →
      success_rate s = (s.passed_models : ℚ) / (s.total_models : ℚ) := by
    intro s hs
    simp [success_rate, hs]
  have hsr2 : ∀ s : VerificationSummary, s.total_models = 0 → success_rate s = 0 := by
    intro s hs
    simp [success_rate, hs]
  refine ⟨?_, ?_, hsr1 _, hsr2 _⟩ <;> cases connect_ok
  · simp [verify_models, create_failed_summary]
  · simp only [verify_models, Bool.not_true, Bool.false_eq_true, if_false]
    set rs := model_fqns.map (fun fqn => verify_single_model fqn
      (create_baseline_map baseline_fingerprints) (current_results fqn)) with hrs
    have hcount : rs.countP (fun r => r.passed) ≤ rs.length := List.countP_le_length _
    have hlen : rs.length = model_fqns.length := by
      rw [hrs]
      exact List.length_map _ _
    omega
  · simp [verify_models, create_failed_summary]
  · simp [verify_models]

/-- C10 witness. -/
theorem verify_models_count_invariant_witness :
    0 < (verify_models true "A" ["DBT_DEMO.DEV.FACT"] [] (fun _ => none) "t").total_models ∧
    success_rate (verify_models true "A" ["DBT_DEMO.DEV.FACT"] [] (fun _ => none) "t") =
      ((verify_models true "A" ["DBT_DEMO.DEV.FACT"] [] (fun _ => none) "t").passed_models : ℚ) /
      ((verify_models true "A" ["DBT_DEMO.DEV.FACT"] [] (fun _ => none) "t").total_models : ℚ) ∧
    (verify_models true "B" [] [] (fun _ => none) "t").total_models = 0 ∧
    success_rate (verify_models true "B" [] [] (fun _ => none) "t") = 0 :=
  ⟨by decide,
   (verify_models_count_invariant true "A" ["DBT_DEMO.DEV.FACT"] []
      (fun _ => none) "t").2.2.1 (by decide),
   by decide,
   (verify_models_count_invariant true "B" [] [] (fun _ => none) "t").2.2.2 (by decide)⟩
